import Mathlib

set_option maxRecDepth 100000

/-!
Verification development for the Sleeping Dogs `.perm.bin` importer
(`sleeping-dogs-importer.py`). The Python source is shallowly embedded:
the byte buffer is a `List Nat`, the file cursor an explicit position,
fallible `struct.unpack` reads return `Except`, and the global scan state
is threaded explicitly. Line numbers in comments refer to the Python
source file.
-/

/-- A byte buffer (the opened `.perm.bin` file, or the companion `.temp.bin`
file). Bytes are naturals; well-formed files have every entry below 256. -/
abbrev Buf := List Nat

/-- A positional reader over a buffer: `BinaryReader.__init__` keeps the file,
`tell` is `pos`, `fileSize` is `buf.length`. -/
structure Cursor where
  buf : Buf
  pos : Nat
deriving Repr, DecidableEq

/-- Errors a parse can raise.  `truncated` is `struct.error` (a read past the
end of the buffer gives `struct.unpack` fewer bytes than it needs),
`negSeek` is the `ValueError`/`OSError` Python raises for a seek to a
negative position, `typeError` is the `TypeError` from `file.write(None)`,
and `keyError` is a failed unguarded dict access. -/
inductive PErr where
  | truncated
  | negSeek
  | typeError
  | keyError
deriving Repr, DecidableEq

/-- `file.read(n)`: returns up to `n` bytes from the current position and
advances by however many bytes were actually available. -/
def fileRead (c : Cursor) (n : Nat) : List Nat × Cursor :=
  let bs := (c.buf.drop c.pos).take n
  (bs, { c with pos := c.pos + bs.length })

/-- A read that `struct.unpack` consumes: raises `struct.error` (`truncated`)
unless exactly `n` bytes were available. -/
def readBytes (c : Cursor) (n : Nat) : Except PErr (List Nat × Cursor) :=
  let r := fileRead c n
  if r.1.length = n then .ok r else .error .truncated

/-- Little-endian value of a byte list (each byte reduced mod 256, as in a
real binary file). -/
def leNat : List Nat → Nat
  | [] => 0
  | b :: bs => b % 256 + 256 * leNat bs

/-- Reinterpret an unsigned 32-bit value as the signed int `struct.unpack
"<i"` returns. -/
def toI32 (n : Nat) : Int :=
  if n % 2 ^ 32 < 2 ^ 31 then ((n % 2 ^ 32 : Nat) : Int)
  else ((n % 2 ^ 32 : Nat) : Int) - 2 ^ 32

/-- Exact value of an IEEE-754 single-precision bit pattern, as a rational
(`struct.unpack "<f"`).  Exponent 255 is an infinity or NaN, exponent 0 a
denormal; every finite float value is an exact rational so nothing is lost. -/
inductive FVal where
  | finite (q : ℚ)
  | inf (neg : Bool)
  | nan
deriving Repr, DecidableEq

/-- Decode a 32-bit pattern as an IEEE-754 single. -/
def decodeF32 (bits0 : Nat) : FVal :=
  let bits : Nat := bits0 % 2 ^ 32
  let s : Nat := bits / 2 ^ 31
  let e : Nat := (bits / 2 ^ 23) % 256
  let m : Nat := bits % 2 ^ 23
  if e = 255 then (if m = 0 then .inf (s = 1) else .nan)
  else
    let sign : ℚ := if s = 1 then -1 else 1
    if e = 0 then .finite (sign * (m : ℚ) / ((2 ^ 149 : Nat) : ℚ))
    else if e ≤ 150 then
      .finite (sign * ((2 ^ 23 + m : Nat) : ℚ) / ((2 ^ (150 - e) : Nat) : ℚ))
    else .finite (sign * ((2 ^ 23 + m : Nat) : ℚ) * ((2 ^ (e - 150) : Nat) : ℚ))

namespace BinaryReader

/-- `BinaryReader.i(count)` (lines 46-50): `count` little-endian signed
32-bit reads.  `range` of a non-positive count is empty, so callers pass
`Int.toNat` of the count the Python code uses. -/
def i (c : Cursor) : Nat → Except PErr (List Int × Cursor)
  | 0 => .ok ([], c)
  | n + 1 => do
    let (bs, c1) ← readBytes c 4
    let (rest, c2) ← i c1 n
    .ok (toI32 (leNat bs) :: rest, c2)

/-- `BinaryReader.h(count)` (lines 52-56; `H` at 65-69 is identical):
`count` little-endian unsigned 16-bit reads. -/
def h (c : Cursor) : Nat → Except PErr (List Nat × Cursor)
  | 0 => .ok ([], c)
  | n + 1 => do
    let (bs, c1) ← readBytes c 2
    let (rest, c2) ← h c1 n
    .ok (leNat bs :: rest, c2)

/-- `BinaryReader.half(count)` (lines 58-63): unsigned 16-bit reads scaled
by `2 ** -14`; the scaled value is an exact rational. -/
def half (c : Cursor) : Nat → Except PErr (List ℚ × Cursor)
  | 0 => .ok ([], c)
  | n + 1 => do
    let (bs, c1) ← readBytes c 2
    let (rest, c2) ← half c1 n
    .ok ((leNat bs : ℚ) / 2 ^ 14 :: rest, c2)

/-- `BinaryReader.f(count)` (lines 71-75): `count` IEEE-754 single reads. -/
def f (c : Cursor) : Nat → Except PErr (List FVal × Cursor)
  | 0 => .ok ([], c)
  | n + 1 => do
    let (bs, c1) ← readBytes c 4
    let (rest, c2) ← f c1 n
    .ok (decodeF32 (leNat bs) :: rest, c2)

/-- `BinaryReader.B(count)` (lines 77-81): `count` unsigned byte reads. -/
def B (c : Cursor) : Nat → Except PErr (List Nat × Cursor)
  | 0 => .ok ([], c)
  | n + 1 => do
    let (bs, c1) ← readBytes c 1
    let (rest, c2) ← B c1 n
    .ok (leNat bs :: rest, c2)

/-- Character accumulator of `BinaryReader.word` (lines 83-91).  Each turn
reads one byte: at end of file `read(1)` returns the empty bytes object,
which is not the null byte, decodes to the empty string and does not move
the cursor; a null byte stops the loop after a relative seek of
`length - _ - 1`; any other byte is decoded with `errors = ignore`, which
keeps it only when it is ASCII (below 128). -/
def wordChars (buf : Buf) (pos : Nat) : Nat → List Char × Nat
  | 0 => ([], pos)
  | r + 1 =>
    match buf[pos]? with
    | none => wordChars buf pos r
    | some b =>
      if b = 0 then ([], pos + 1 + r)
      else
        let rest := wordChars buf (pos + 1) r
        (if b % 256 < 128 then Char.ofNat (b % 256) :: rest.1 else rest.1, rest.2)

/-- `BinaryReader.word(length)` (lines 83-91). -/
def word (c : Cursor) (length : Nat) : String × Cursor :=
  let r := wordChars c.buf c.pos length
  (String.mk r.1, { c with pos := r.2 })

end BinaryReader

/-- Absolute `seek` with a possibly negative target: Python raises for a
negative position, and permits positions past the end of the file. -/
def seekTo (target : Int) : Except PErr Nat :=
  if target < 0 then .error .negSeek else .ok target.toNat

/-- Python dict assignment `d[k] = v`: replaces the value of an existing
key in place, otherwise appends (insertion order preserved). -/
def dictInsert {α : Type} (d : List (Int × α)) (k : Int) (v : α) : List (Int × α) :=
  match d with
  | [] => [(k, v)]
  | (k1, v1) :: rest => if k1 = k then (k, v) :: rest else (k1, v1) :: dictInsert rest k v

/-- Python dict lookup: `d[k]` / `str(k) in d` (the source keys its dicts by
`str` of an int, and `str` is injective on ints, so keys are modelled as the
ints themselves). -/
def dictLookup {α : Type} (d : List (Int × α)) (k : Int) : Option α :=
  match d with
  | [] => none
  | (k1, v1) :: rest => if k1 = k then some v1 else dictLookup rest k

/-- Python slice index normalization for `l[a:b]`: a negative index counts
from the end (clamped at 0), a non-negative one is clamped to the length. -/
def pyIdx (len : Nat) (i : Int) : Nat :=
  if i < 0 then ((len : Int) + i).toNat else min i.toNat len

/-- Python list slice `l[a:b]`: never raises, silently clamps both bounds. -/
def pySlice {α : Type} (l : List α) (a b : Int) : List α :=
  (l.take (pyIdx l.length b)).drop (pyIdx l.length a)

/-- `Facesgroups` (lines 241-246). -/
structure Facesgroups where
  name : String := ""
  diffuse : Option String := none
  faceIDstart : Int := 0
  faceIDcount : Int := 0
deriving Repr, DecidableEq

/-- `Vertexgroups` (lines 248-254). -/
structure Vertexgroups where
  indiceslist : List (List Nat) := []
  weightslist : List (List ℚ) := []
  vertexIDstart : Nat := 0
  vertexIDcount : Int := 0
  usedbones : List String := []
deriving Repr, DecidableEq

/-- `Mesh` (lines 93-101); only the decoded data, not the Blender drawing. -/
structure Mesh where
  name : String := ""
  vertexlist : List (List FVal) := []
  vertexuvlist : List (List ℚ) := []
  indiceslist : List Nat := []
  facesgroupslist : List Facesgroups := []
  vertexgroupslist : List Vertexgroups := []
deriving Repr, DecidableEq

/-- `Mesh()` followed by assigning `name` (lines 372-374). -/
def Mesh.new (name : String) : Mesh := { name := name }

/-- One entry of the `materials` dict: the inner dict may hold a
`diffID` and a `specID` key (lines 441-449). -/
structure MatEntry where
  diffID : Option Int := none
  specID : Option Int := none
deriving Repr, DecidableEq

/-- The `streams` dict value `[v, g.tell()]` (line 455): the 32-field
descriptor and the data offset right after it. -/
abbrev StreamEntry := List Int × Nat

abbrev Streams := List (Int × StreamEntry)
abbrev Materials := List (Int × MatEntry)

/-- The 128 bytes returned by `ddsheader()` (lines 260-261). -/
def ddsheaderBytes : Buf :=
  [68, 68, 83, 32, 124, 0, 0, 0, 7, 16, 10, 0, 0, 4, 0, 0, 0, 4, 0, 0, 0, 0, 8, 0,
   0, 0, 0, 0, 11, 0, 0, 0, 0, 0, 0, 0, 0, 0, 0, 0, 0, 0, 0, 0, 0, 0, 0, 0,
   0, 0, 0, 0, 0, 0, 0, 0, 0, 0, 0, 0, 0, 0, 0, 0, 0, 0, 0, 0, 0, 0, 0, 0,
   0, 0, 0, 0, 32, 0, 0, 0, 5, 0, 0, 0, 68, 88, 84, 49, 0, 0, 0, 0, 0, 0, 0, 0,
   0, 0, 0, 0, 0, 0, 0, 0, 0, 0, 0, 0, 8, 16, 64, 0, 0, 0, 0, 0, 0, 0, 0, 0,
   0, 0, 0, 0, 0, 0, 0, 0]

/-- `struct.pack("i", n)`: four little-endian bytes. -/
def i32ToBytes (n : Int) : List Nat :=
  let u := (n % 2 ^ 32).toNat
  [u % 256, u / 256 % 256, u / 2 ^ 16 % 256, u / 2 ^ 24 % 256]

/-- `new.seek(off)` followed by `new.write(bs)` on a file whose content so
far is `content`: overwrites in place, zero-padding if the seek was past the
end, appending at the end. -/
def writeAt (content : List Nat) (off : Nat) (bs : List Nat) : List Nat :=
  content.take off ++ List.replicate (off - content.length) 0 ++ bs ++
    content.drop (off + bs.length)

/-- `file.seek(pos)` then `file.read(n)` with an int count from the file:
Python reads to the end of the file when the count is negative. -/
def fileReadCount (buf : Buf) (pos : Nat) (n : Int) : List Nat :=
  if n < 0 then buf.drop pos else (buf.drop pos).take n.toNat

def DXT1 : List Nat := [68, 88, 84, 49]
def DXT3 : List Nat := [68, 88, 84, 51]
def DXT5 : List Nat := [68, 88, 84, 53]

/-- Texture section handler, lines 307-347, entered after the companion
`.temp.` file was found (`temp` is its content).  Returns the `.dds` files
written (a file also appears when `TypeError` is raised halfway through
writing it), the cursor, and the exception raised if any: `new.write(dxt)`
with `dxt = None` raises `TypeError`, `tempfile.seek` of a negative offset
raises, and a short `g.i(55)` read raises `struct.error`. -/
def textureSection (temp : Buf) (dirname : String) (vc3 : Int) (c : Cursor) :
    List (String × Buf) × Cursor × Option PErr :=
  match BinaryReader.i c 55 with
  | .error e => ([], c, some e)
  | .ok (vn, c1) =>
    let wh : Option Nat :=
      if vn.getD 4 0 = 65546 then some 2048
      else if vn.getD 4 0 = 65545 then some 1024
      else if vn.getD 4 0 = 65544 then some 512
      else if vn.getD 4 0 = 65543 then some 256
      else if vn.getD 4 0 = 65542 then some 128
      else if vn.getD 4 0 = 65541 then some 64
      else none
    let dxt : Option (List Nat) :=
      if vn.getD 1 0 = 1 then some DXT1
      else if vn.getD 1 0 = 3 then some DXT5
      else if vn.getD 1 0 = 2 then some DXT3
      else none
    match wh with
    | none => ([], c1, none)
    | some w =>
      let fname := dirname ++ "/" ++ toString vc3 ++ ".dds"
      let content1 := writeAt (writeAt ddsheaderBytes 12 (i32ToBytes w)) 16 (i32ToBytes w)
      match dxt with
      | none => ([(fname, content1)], c1, some .typeError)
      | some fourcc =>
        let content2 := writeAt content1 84 fourcc
        if vn.getD 12 0 < 0 then ([(fname, content2)], c1, some .negSeek)
        else
          let payload := fileReadCount temp (vn.getD 12 0).toNat (vn.getD 13 0)
          ([(fname, writeAt content2 128 payload)], c1, none)

/-- `header[1]` bone-name reads of `word(64)` each (lines 292-293). -/
def boneNamesLoop (buf : Buf) : Nat → Nat → List String × Nat
  | 0, pos => ([], pos)
  | n + 1, pos =>
    let w := BinaryReader.word ⟨buf, pos⟩ 64
    let rest := boneNamesLoop buf n w.2.pos
    (w.1 :: rest.1, rest.2)

/-- `header[1]` quadruples of `H(1)` reads (lines 294-299); the scaled
values are only printed, so just the cursor motion and failure matter. -/
def boneQuatsLoop (buf : Buf) : Nat → Nat → Except PErr Nat
  | 0, pos => .ok pos
  | n + 1, pos => do
    let (_, c1) ← BinaryReader.h ⟨buf, pos⟩ 1
    let (_, c2) ← BinaryReader.h c1 1
    let (_, c3) ← BinaryReader.h c2 1
    let (_, c4) ← BinaryReader.h c3 1
    boneQuatsLoop buf n c4.pos

/-- Skeleton section handler (lines 288-299). -/
def boneSection (c : Cursor) (bonenamelist : List String) :
    Except PErr (List String × Cursor) := do
  let (vn, c1) ← BinaryReader.i c 8
  let (_, c2) ← BinaryReader.B c1 160
  let names := boneNamesLoop c.buf (vn.getD 1 0).toNat c2.pos
  let p ← boneQuatsLoop c.buf (vn.getD 1 0).toNat names.2
  .ok (bonenamelist ++ names.1, ⟨c.buf, p⟩)

/-- `materials[str(vc[3])]["diffID"] = v`. -/
def matSetDiff (d : Materials) (k : Int) (v : Int) : Materials :=
  d.map fun kv => if kv.1 = k then (kv.1, { kv.2 with diffID := some v }) else kv

/-- `materials[str(vc[3])]["specID"] = v`. -/
def matSetSpec (d : Materials) (k : Int) (v : Int) : Materials :=
  d.map fun kv => if kv.1 = k then (kv.1, { kv.2 with specID := some v }) else kv

/-- `header[4]` sub-records of 8 int32 each (lines 444-449). -/
def materialLoop (buf : Buf) (key : Int) : Nat → Nat → Materials → Except PErr (Materials × Nat)
  | 0, pos, mats => .ok (mats, pos)
  | n + 1, pos, mats => do
    let (vp, c1) ← BinaryReader.i ⟨buf, pos⟩ 8
    let mats1 := if vp.getD 0 0 = -589273463 then matSetDiff mats key (vp.getD 6 0) else mats
    let mats2 := if vp.getD 0 0 = -1396934011 then matSetSpec mats1 key (vp.getD 6 0) else mats1
    materialLoop buf key n c1.pos mats2

/-- Material section handler (lines 439-451). -/
def materialSection (c : Cursor) (vc3 : Int) (materials : Materials) :
    Except PErr (Materials × Cursor) := do
  let mats0 := dictInsert materials vc3 {}
  let (vn, c1) ← BinaryReader.i c 8
  let (mats1, p2) ← materialLoop c.buf vc3 (vn.getD 4 0).toNat c1.pos mats0
  let (_, c3) ← BinaryReader.i ⟨c.buf, p2⟩ 4
  .ok (mats1, c3)

/-- Stream section handler (lines 453-455): read the 32-field descriptor
and bind `[v, g.tell()]` under the section id by plain dict assignment. -/
def streamSection (c : Cursor) (vc3 : Int) (streams : Streams) :
    Except PErr (Streams × Cursor) := do
  let (v, c1) ← BinaryReader.i c 32
  .ok (dictInsert streams vc3 (v, c1.pos), c1)

/-- Stride-16 position loop (lines 424-431): three `h(1)` values scaled by
`2 ** -14` per record, stepping 16 bytes. -/
def decodePos16 (buf : Buf) : Nat → Nat → Except PErr (List (List FVal) × Nat)
  | 0, pos => .ok ([], pos)
  | n + 1, pos => do
    let (xs, c1) ← BinaryReader.h ⟨buf, pos⟩ 1
    let (ys, c2) ← BinaryReader.h c1 1
    let (zs, _) ← BinaryReader.h c2 1
    let v : List FVal := [.finite ((xs.getD 0 0 : ℚ) / 2 ^ 14),
                          .finite ((ys.getD 0 0 : ℚ) / 2 ^ 14),
                          .finite ((zs.getD 0 0 : ℚ) / 2 ^ 14)]
    let (rest, p) ← decodePos16 buf n (pos + 16)
    .ok (v :: rest, p)

/-- Stride-12 position loop (lines 433-437): `g.f(3)` per record, stepping
12 bytes. -/
def decodePos12 (buf : Buf) : Nat → Nat → Except PErr (List (List FVal) × Nat)
  | 0, pos => .ok ([], pos)
  | n + 1, pos => do
    let (fs, _) ← BinaryReader.f ⟨buf, pos⟩ 3
    let (rest, p) ← decodePos12 buf n (pos + 12)
    .ok (fs :: rest, p)

/-- Lines 421-437: seek to the stream data, then the two stride tests; any
stride other than 16 and 12 matches neither `if` and decodes nothing. -/
def decodePositions (buf : Buf) (dataOff : Nat) (stride : Int) (count : Nat) :
    Except PErr (List (List FVal) × Nat) :=
  if stride = 16 then decodePos16 buf count dataOff
  else if stride = 12 then decodePos12 buf count dataOff
  else .ok ([], dataOff)

/-- UV loop (lines 393-396): `half(2)` per record, then an absolute seek
`stride` bytes past the record start (a stride from the file may be
negative and make the seek target negative, which raises). -/
def uvLoop (buf : Buf) (stride : Int) : Nat → Nat → Except PErr (List (List ℚ) × Nat)
  | 0, pos => .ok ([], pos)
  | n + 1, pos => do
    let (uv, _) ← BinaryReader.half ⟨buf, pos⟩ 2
    let next ← seekTo ((pos : Int) + stride)
    let (rest, p) ← uvLoop buf stride n next
    .ok (uv :: rest, p)

/-- Skin loop (lines 406-414): 4 bone-index bytes, then 4 weight bytes each
divided by 255.0, stepping `stride` bytes per record. -/
def skinLoop (buf : Buf) (stride : Int) :
    Nat → Nat → Except PErr (List (List Nat) × List (List ℚ) × Nat)
  | 0, pos => .ok ([], [], pos)
  | n + 1, pos => do
    let (bi, c1) ← BinaryReader.B ⟨buf, pos⟩ 4
    let (l1, c2) ← BinaryReader.B c1 1
    let (l2, c3) ← BinaryReader.B c2 1
    let (l3, c4) ← BinaryReader.B c3 1
    let (l4, _) ← BinaryReader.B c4 1
    let ws : List ℚ := [(l1.getD 0 0 : ℚ) / 255, (l2.getD 0 0 : ℚ) / 255,
                        (l3.getD 0 0 : ℚ) / 255, (l4.getD 0 0 : ℚ) / 255]
    let next ← seekTo ((pos : Int) + stride)
    let (restI, restW, p) ← skinLoop buf stride n next
    .ok (bi :: restI, ws :: restW, p)

/-- Line 383: `mesh.indiceslist.extend(g.h(count)[va[29] : va[29] + va[30] * 3])`. -/
def extendIndices (old : List Nat) (allIdx : List Nat) (start cnt : Int) : List Nat :=
  old ++ pySlice allIdx start (start + cnt * 3)

/-- Line 436 / line 430: appending the decoded position records to the
owning mesh's vertex list. -/
def Mesh.appendPositions (m : Mesh) (ps : List (List FVal)) : Mesh :=
  { m with vertexlist := m.vertexlist ++ ps }

/-- The mutable mesh-building state of `bin_parser`. -/
structure MeshAcc where
  streamsID : List Int
  mesh_list : List Mesh
  meshID : Nat
deriving Repr, DecidableEq

/-- One iteration of the mesh-info record loop (lines 356-437). -/
def processMeshRecord (buf : Buf) (streams : Streams) (materials : Materials)
    (bonenamelist : List String) (modelId dirname : String) (off : Nat)
    (offsetEntry : Int) (m : Nat) (acc : MeshAcc) : Except PErr MeshAcc := do
  let pos0 ← seekTo (((m * 4 + off : Nat) : Int) + offsetEntry)
  let (va, _) ← BinaryReader.i ⟨buf, pos0⟩ 36
  match dictLookup streams (va.getD 11 0) with
  | none => .ok acc
  | some indicesstream => do
    let materialID := va.getD 3 0
    let diffuse : Option String :=
      match dictLookup materials materialID with
      | some entry => entry.diffID.map fun d => dirname ++ "/" ++ toString d ++ ".dds"
      | none => none
    let acc1 : MeshAcc :=
      if acc.streamsID.contains (va.getD 15 0) then acc
      else { streamsID := acc.streamsID ++ [va.getD 15 0]
             mesh_list := acc.mesh_list ++ [Mesh.new (modelId ++ "-model-" ++ toString acc.meshID)]
             meshID := acc.meshID + 1 }
    let idx := acc1.streamsID.indexOf (va.getD 15 0)
    let mesh0 := acc1.mesh_list.getD idx (Mesh.new "")
    let (allIdx, _) ← BinaryReader.h ⟨buf, indicesstream.2⟩ (indicesstream.1.getD 4 0).toNat
    let newIndices := extendIndices mesh0.indiceslist allIdx (va.getD 29 0) (va.getD 30 0)
    let fg : Facesgroups := {
      name := modelId ++ "-mat-" ++ toString m
      diffuse := diffuse
      faceIDstart := ((newIndices.length / 3 : Nat) : Int) - va.getD 30 0
      faceIDcount := va.getD 30 0 }
    let mesh1 := { mesh0 with indiceslist := newIndices
                              facesgroupslist := mesh0.facesgroupslist ++ [fg] }
    let mesh2 ← (match dictLookup streams (va.getD 23 0) with
      | none => pure mesh1
      | some uvstream => do
          let (uvs, _) ← uvLoop buf (uvstream.1.getD 3 0) (uvstream.1.getD 4 0).toNat uvstream.2
          pure { mesh1 with vertexuvlist := mesh1.vertexuvlist ++ uvs })
    let mesh3 ← (match dictLookup streams (va.getD 19 0) with
      | none => pure mesh2
      | some skinstream => do
          let (bis, ws, _) ← skinLoop buf (skinstream.1.getD 3 0) (skinstream.1.getD 4 0).toNat skinstream.2
          let vg : Vertexgroups := {
            indiceslist := bis
            weightslist := ws
            vertexIDstart := mesh2.vertexlist.length
            vertexIDcount := skinstream.1.getD 4 0
            usedbones := bonenamelist }
          pure { mesh2 with vertexgroupslist := mesh2.vertexgroupslist ++ [vg] })
    match dictLookup streams (va.getD 15 0) with
    | none => .error .keyError
    | some vertexstream => do
        let (ps, _) ← decodePositions buf vertexstream.2 (vertexstream.1.getD 3 0)
            (vertexstream.1.getD 4 0).toNat
        .ok { acc1 with mesh_list := acc1.mesh_list.set idx (mesh3.appendPositions ps) }

/-- The `for m in range(vn[1])` loop of the mesh-info section. -/
def meshInfoLoop (buf : Buf) (streams : Streams) (materials : Materials)
    (bonenamelist : List String) (modelId dirname : String) (off : Nat)
    (offsetlist : List Int) : Nat → Nat → MeshAcc → Except PErr MeshAcc
  | 0, _, acc => .ok acc
  | n + 1, m, acc => do
    let acc1 ← processMeshRecord buf streams materials bonenamelist modelId dirname off
        (offsetlist.getD m 0) m acc
    meshInfoLoop buf streams materials bonenamelist modelId dirname off offsetlist n (m + 1) acc1

/-- Mesh-info section handler (lines 349-437): discard 15 int32, read 17
int32, read the `vn[1]`-entry offset table, then the record loop.  The
cursor after this handler is dead: line 457 forces the end-of-section
position. -/
def meshInfoSection (c : Cursor) (streams : Streams) (materials : Materials)
    (bonenamelist : List String) (modelId dirname : String) (acc : MeshAcc) :
    Except PErr MeshAcc := do
  let (_, c1) ← BinaryReader.i c 15
  let (vn, c2) ← BinaryReader.i c1 17
  let off := c2.pos
  let (offsetlist, _) ← BinaryReader.i c2 (vn.getD 1 0).toNat
  meshInfoLoop c.buf streams materials bonenamelist modelId dirname off offsetlist
    (vn.getD 1 0).toNat 0 acc

def boneTag : Int := -1742448933
def textureTag : Int := -843079536
def meshInfoTag : Int := 1845060531
def materialTag : Int := -168275601
def streamTag : Int := 2056721529

/-- The whole mutable state of one `bin_parser` run, plus the observable
effects: `.dds` files written and warnings printed. -/
structure ScanState where
  cur : Cursor
  streams : Streams := []
  materials : Materials := []
  streamsID : List Int := []
  mesh_list : List Mesh := []
  meshID : Nat := 0
  bonenamelist : List String := []
  outputs : List (String × Buf) := []
  warnings : List String := []
deriving Repr, DecidableEq

def initState (buf : Buf) : ScanState := { cur := ⟨buf, 0⟩ }

/-- Line 457: `g.seek(t + vm[1])`, the forced end-of-section seek. -/
def finishStep (s : ScanState) (t : Nat) (len : Int) : ScanState × Option PErr :=
  match seekTo ((t : Int) + len) with
  | .error e => (s, some e)
  | .ok p => ({ s with cur := ⟨s.cur.buf, p⟩ }, none)

/-- One iteration of the `while True` scan loop (lines 282-457): header
read, relative skip, id block, 36-byte label, tag dispatch, forced seek.
A texture section whose companion file is absent (`temp = none`) prints a
warning and runs `continue` (line 306), which skips the forced seek. -/
def scanStep (temp : Option Buf) (modelId dirname : String) (s : ScanState) :
    ScanState × Option PErr :=
  match BinaryReader.i s.cur 4 with
  | .error e => (s, some e)
  | .ok (vm, c1) =>
    let t := c1.pos
    match seekTo ((t : Int) + vm.getD 3 0) with
    | .error e => ({ s with cur := c1 }, some e)
    | .ok p2 =>
      match BinaryReader.i ⟨s.cur.buf, p2⟩ 7 with
      | .error e => ({ s with cur := ⟨s.cur.buf, p2⟩ }, some e)
      | .ok (vc, c3) =>
        let c4 := (BinaryReader.word c3 36).2
        let vc3 := vc.getD 3 0
        if vm.getD 0 0 = boneTag then
          match boneSection c4 s.bonenamelist with
          | .error e => ({ s with cur := c4 }, some e)
          | .ok (names, c5) =>
            finishStep { s with bonenamelist := names, cur := c5 } t (vm.getD 1 0)
        else if vm.getD 0 0 = textureTag then
          match temp with
          | none =>
            ({ s with cur := c4, warnings := s.warnings ++ ["Temp file not found"] }, none)
          | some tbuf =>
            match textureSection tbuf dirname vc3 c4 with
            | (outs, c5, some e) => ({ s with cur := c5, outputs := s.outputs ++ outs }, some e)
            | (outs, c5, none) =>
              finishStep { s with cur := c5, outputs := s.outputs ++ outs } t (vm.getD 1 0)
        else if vm.getD 0 0 = meshInfoTag then
          match meshInfoSection c4 s.streams s.materials s.bonenamelist modelId dirname
              ⟨s.streamsID, s.mesh_list, s.meshID⟩ with
          | .error e => ({ s with cur := c4 }, some e)
          | .ok acc =>
            finishStep { s with streamsID := acc.streamsID, mesh_list := acc.mesh_list,
                                meshID := acc.meshID } t (vm.getD 1 0)
        else if vm.getD 0 0 = materialTag then
          match materialSection c4 vc3 s.materials with
          | .error e => ({ s with cur := c4 }, some e)
          | .ok (mats, c5) => finishStep { s with materials := mats, cur := c5 } t (vm.getD 1 0)
        else if vm.getD 0 0 = streamTag then
          match streamSection c4 vc3 s.streams with
          | .error e => ({ s with cur := c4 }, some e)
          | .ok (strs, c5) => finishStep { s with streams := strs, cur := c5 } t (vm.getD 1 0)
        else finishStep { s with cur := c4 } t (vm.getD 1 0)

/-- The `while True` loop (lines 278-457), with fuel for termination: the
loop stops exactly when `tell() == fileSize()`.  `none` means the fuel ran
out, `some (s, none)` a normal end of file, `some (s, some e)` an
exception raised mid-scan (state holds the effects up to the failing
iteration). -/
def binParserLoop (temp : Option Buf) (modelId dirname : String) :
    Nat → ScanState → Option (ScanState × Option PErr)
  | 0, _ => none
  | fuel + 1, s =>
    if s.cur.pos = s.cur.buf.length then some (s, none)
    else
      match scanStep temp modelId dirname s with
      | (s1, none) => binParserLoop temp modelId dirname fuel s1
      | (s1, some e) => some (s1, some e)

/-- `bin_parser(filename)` (lines 263-460) on a buffer, with the companion
`.temp.` file content when that file exists. -/
def binParserRun (buf : Buf) (temp : Option Buf) (modelId dirname : String) (fuel : Nat) :
    Option (ScanState × Option PErr) :=
  binParserLoop temp modelId dirname fuel (initState buf)

/-- Python `needle in hay` on strings. -/
def strContains (hay needle : String) : Bool :=
  (List.range (hay.data.length + 1)).any fun k => needle.data.isPrefixOf (hay.data.drop k)

/-- `filepath.split(".")[-1].lower()` (line 469). -/
def lastExt (filepath : String) : String :=
  ((filepath.splitOn ".").getLastD "").toLower

/-- The value and console effects of `import_sleeping_dogs`. -/
structure ImportResult where
  status : String
  logs : List String
deriving Repr, DecidableEq

/-- `import_sleeping_dogs(context, filepath)` (lines 462-484): the whole
body sits in `try/except Exception`; the except branch prints the error and
a traceback; the `return {"FINISHED"}` is outside the `try` and runs on
every path.  `parse` is the outcome `bin_parser` produced for this file. -/
def import_sleeping_dogs (filepath : String) (parse : ScanState × Option PErr) : ImportResult :=
  let ext := lastExt filepath
  if strContains ext "bin" then
    match parse.2 with
    | none => { status := "FINISHED", logs := ["Import completed"] }
    | some _ => { status := "FINISHED", logs := ["Error during import", "traceback"] }
  else { status := "FINISHED", logs := ["Unsupported file extension"] }

/-! Derived values used to state the claims, and concrete containers used
to evaluate them. -/

/-- The signed int32 stored little-endian at byte offset `p` of a buffer. -/
def i32At (buf : Buf) (p : Nat) : Int := toI32 (leNat ((buf.drop p).take 4))

/-- The int32 record array of length `n` starting at byte offset `p`. -/
def i32ListAt (buf : Buf) (p n : Nat) : List Int :=
  (List.range n).map fun j => i32At buf (p + 4 * j)

/-- The unsigned int16 stored little-endian at byte offset `p`. -/
def u16At (buf : Buf) (p : Nat) : Nat := leNat ((buf.drop p).take 2)

/-- The unsigned int32 stored little-endian at byte offset `p`. -/
def u32At (buf : Buf) (p : Nat) : Nat := leNat ((buf.drop p).take 4)

/-- What the spec says a stride-16 position stream of `count` records at
`pos` holds: per record three 16-bit values scaled by `2 ** -14`, read at
16-byte steps, trailing 10 bytes of each record ignored. -/
def pos16List (buf : Buf) (pos count : Nat) : List (List FVal) :=
  (List.range count).map fun n =>
    [FVal.finite ((u16At buf (pos + 16 * n) : ℚ) / 2 ^ 14),
     FVal.finite ((u16At buf (pos + 16 * n + 2) : ℚ) / 2 ^ 14),
     FVal.finite ((u16At buf (pos + 16 * n + 4) : ℚ) / 2 ^ 14)]

/-- What the spec says a stride-12 position stream holds: per record three
raw IEEE-754 singles. -/
def pos12List (buf : Buf) (pos count : Nat) : List (List FVal) :=
  (List.range count).map fun n =>
    [decodeF32 (u32At buf (pos + 12 * n)), decodeF32 (u32At buf (pos + 12 * n + 4)),
     decodeF32 (u32At buf (pos + 12 * n + 8))]

/-- The characters `word` keeps from a byte run: the ASCII ones, decoded. -/
def asciiChars (l : List Nat) : List Char :=
  (l.filter fun b => decide (b % 256 < 128)).map fun b => Char.ofNat (b % 256)

/-- The 128-byte header the texture extractor emits for a 256-by-256 DXT1
texture: `ddsheader()` with height patched at 0xC, width at 0x10 and the
FourCC at 0x54. -/
def ddsPatched256 : Buf :=
  writeAt (writeAt (writeAt ddsheaderBytes 12 (i32ToBytes 256)) 16 (i32ToBytes 256)) 84 DXT1

/-- Concatenated little-endian int32 encoding of a list (container builder). -/
def intBytes (l : List Int) : List Nat := l.foldr (fun n acc => i32ToBytes n ++ acc) []

/-- Little-endian int16 encoding (container builder). -/
def u16b (n : Nat) : List Nat := [n % 256, n / 256 % 256]

/-- A container holding one texture section of declared length 100 with
header skip 0 and section id 7; its companion file is taken to be absent. -/
def bufC1 : Buf :=
  intBytes [textureTag, 100, 0, 0] ++ intBytes [0, 0, 0, 7, 0, 0, 0] ++
    List.replicate 36 0 ++ List.replicate 36 0

/-- A container holding a texture section (declared length 76, body 12
filler bytes) followed by a stream section with id 5; the companion file is
taken to be absent. -/
def bufC2 : Buf :=
  intBytes [textureTag, 76, 0, 0] ++ intBytes [0, 0, 0, 7, 0, 0, 0] ++ List.replicate 36 0 ++
    List.replicate 12 0 ++
    intBytes [streamTag, 192, 0, 0] ++ intBytes [0, 0, 0, 5, 0, 0, 0] ++ List.replicate 36 0 ++
    intBytes (List.replicate 32 0)

/-- A container with an index stream (id 10, stride 2, 4 records
`[0, 1, 2, 0]`), a position stream (id 20, stride 12, 1 record), and a
mesh-info section whose single record asks for `faceIndexStart = 0`,
`faceCount = 2`, i.e. 6 indices from a 4-record stream. -/
def bufC3 : Buf :=
  intBytes [streamTag, 200, 0, 0] ++ intBytes [0, 0, 0, 10, 0, 0, 0] ++ List.replicate 36 0 ++
    intBytes ([0, 0, 0, 2, 4] ++ List.replicate 27 0) ++
    (u16b 0 ++ u16b 1 ++ u16b 2 ++ u16b 0) ++
  intBytes [streamTag, 204, 0, 0] ++ intBytes [0, 0, 0, 20, 0, 0, 0] ++ List.replicate 36 0 ++
    intBytes ([0, 0, 0, 12, 1] ++ List.replicate 27 0) ++
    List.replicate 12 0 ++
  intBytes [meshInfoTag, 340, 0, 0] ++ intBytes [0, 0, 0, 1, 0, 0, 0] ++ List.replicate 36 0 ++
    List.replicate 60 0 ++
    intBytes ([0, 1] ++ List.replicate 15 0) ++
    intBytes [4] ++
    intBytes ([0, 0, 0, 0, 0, 0, 0, 0, 0, 0, 0, 10, 0, 0, 0, 20] ++ List.replicate 13 0 ++
      [0, 2] ++ List.replicate 5 0)

/-- A container with an index stream (id 10, stride 2, 3 records
`[0, 1, 2]`), a position stream (id 20) whose descriptor declares the
unsupported stride 20 with 2 records, and a mesh-info section with one
record referencing both. -/
def bufC4 : Buf :=
  intBytes [streamTag, 198, 0, 0] ++ intBytes [0, 0, 0, 10, 0, 0, 0] ++ List.replicate 36 0 ++
    intBytes ([0, 0, 0, 2, 3] ++ List.replicate 27 0) ++
    (u16b 0 ++ u16b 1 ++ u16b 2) ++
  intBytes [streamTag, 192, 0, 0] ++ intBytes [0, 0, 0, 20, 0, 0, 0] ++ List.replicate 36 0 ++
    intBytes ([0, 0, 0, 20, 2] ++ List.replicate 27 0) ++
  intBytes [meshInfoTag, 340, 0, 0] ++ intBytes [0, 0, 0, 1, 0, 0, 0] ++ List.replicate 36 0 ++
    List.replicate 60 0 ++
    intBytes ([0, 1] ++ List.replicate 15 0) ++
    intBytes [4] ++
    intBytes ([0, 0, 0, 0, 0, 0, 0, 0, 0, 0, 0, 10, 0, 0, 0, 20] ++ List.replicate 13 0 ++
      [0, 1] ++ List.replicate 5 0)

/-- A container with two stream sections that both carry section id 5: the
first descriptor starts with 111, the second with 222, and their data
offsets are 208 and 416. -/
def bufC5 : Buf :=
  intBytes [streamTag, 192, 0, 0] ++ intBytes [0, 0, 0, 5, 0, 0, 0] ++ List.replicate 36 0 ++
    intBytes (111 :: List.replicate 31 0) ++
  intBytes [streamTag, 192, 0, 0] ++ intBytes [0, 0, 0, 5, 0, 0, 0] ++ List.replicate 36 0 ++
    intBytes (222 :: List.replicate 31 0)

/-- A container with an index stream (id 10, 3 records `[0, 1, 2]`), a
position stream (id 20, stride 12, 2 records), and a mesh-info section with
two records that both reference position-stream id 20. -/
def bufC6 : Buf :=
  intBytes [streamTag, 198, 0, 0] ++ intBytes [0, 0, 0, 10, 0, 0, 0] ++ List.replicate 36 0 ++
    intBytes ([0, 0, 0, 2, 3] ++ List.replicate 27 0) ++
    (u16b 0 ++ u16b 1 ++ u16b 2) ++
  intBytes [streamTag, 216, 0, 0] ++ intBytes [0, 0, 0, 20, 0, 0, 0] ++ List.replicate 36 0 ++
    intBytes ([0, 0, 0, 12, 2] ++ List.replicate 27 0) ++
    List.replicate 24 0 ++
  intBytes [meshInfoTag, 488, 0, 0] ++ intBytes [0, 0, 0, 1, 0, 0, 0] ++ List.replicate 36 0 ++
    List.replicate 60 0 ++
    intBytes ([0, 2] ++ List.replicate 15 0) ++
    intBytes [8, 148] ++
    intBytes ([0, 0, 0, 0, 0, 0, 0, 0, 0, 0, 0, 10, 0, 0, 0, 20] ++ List.replicate 13 0 ++
      [0, 1] ++ List.replicate 5 0) ++
    intBytes ([0, 0, 0, 0, 0, 0, 0, 0, 0, 0, 0, 10, 0, 0, 0, 20] ++ List.replicate 13 0 ++
      [0, 1] ++ List.replicate 5 0)

/-- A texture section body (the 55 int32 fields) declaring the unknown
codec code 0 together with the known size code 65543. -/
def bufC8 : Buf :=
  intBytes ([0, 0, 0, 0, 65543] ++ List.replicate 50 0)

/-- A texture section body declaring codec 1 (DXT1), size code 65543,
payload offset 2 and payload length 3 (used to evaluate the texture
extractor on concrete input). -/
def bufC7 : Buf :=
  intBytes ([0, 1, 0, 0, 65543, 0, 0, 0, 0, 0, 0, 0, 2, 3] ++ List.replicate 41 0)

/-! General lemmas about the embedded reader and dicts. -/

theorem readBytes_ok (buf : Buf) (pos n : Nat) (h : pos + n ≤ buf.length) :
    readBytes ⟨buf, pos⟩ n = .ok ((buf.drop pos).take n, ⟨buf, pos + n⟩) := by
  have hlen : ((buf.drop pos).take n).length = n := by
    simp only [List.length_take, List.length_drop]
    omega
  simp [readBytes, fileRead, hlen]

theorem i32ListAt_succ (buf : Buf) (p n : Nat) :
    i32ListAt buf p (n + 1) = i32At buf p :: i32ListAt buf (p + 4) n := by
  unfold i32ListAt
  rw [List.range_succ_eq_map, List.map_cons, List.map_map]
  refine congrArg₂ _ (by norm_num) (List.map_congr_left fun j _ => ?_)
  show i32At buf (p + 4 * (j + 1)) = i32At buf (p + 4 + 4 * j)
  have : p + 4 * (j + 1) = p + 4 + 4 * j := by ring
  rw [this]

theorem readI_ok (buf : Buf) (n : Nat) : ∀ pos : Nat, pos + 4 * n ≤ buf.length →
    BinaryReader.i ⟨buf, pos⟩ n = .ok (i32ListAt buf pos n, ⟨buf, pos + 4 * n⟩) := by
  induction n with
  | zero => intro pos _; simp [BinaryReader.i, i32ListAt]
  | succ n ih =>
    intro pos h
    have step : BinaryReader.i ⟨buf, pos⟩ (n + 1) = (do
        let (bs, c1) ← readBytes ⟨buf, pos⟩ 4
        let (rest, c2) ← BinaryReader.i c1 n
        .ok (toI32 (leNat bs) :: rest, c2)) := rfl
    rw [step, readBytes_ok buf pos 4 (by omega)]
    have harith : pos + 4 + 4 * n = pos + 4 * (n + 1) := by ring
    rw [show (⟨buf, pos + 4⟩ : Cursor) = ⟨buf, pos + 4⟩ from rfl]
    simp only [bind, Except.bind, ih (pos + 4) (by omega)]
    rw [i32ListAt_succ, harith]
    rfl

theorem i32ListAt_getD (buf : Buf) (p : Nat) {j n : Nat} (h : j < n) :
    (i32ListAt buf p n).getD j 0 = i32At buf (p + 4 * j) := by
  unfold i32ListAt
  rw [List.getD_eq_getElem?_getD, List.getElem?_map, List.getElem?_range h]
  rfl

theorem dictLookup_insert {α : Type} (d : List (Int × α)) (k : Int) (v : α) :
    dictLookup (dictInsert d k v) k = some v := by
  induction d with
  | nil => simp [dictInsert, dictLookup]
  | cons hd tl ih =>
    by_cases h : hd.1 = k
    · simp [dictInsert, dictLookup, h]
    · simp [dictInsert, dictLookup, h, ih]

theorem h1_ok (buf : Buf) (pos : Nat) (h : pos + 2 ≤ buf.length) :
    BinaryReader.h ⟨buf, pos⟩ 1 = .ok ([u16At buf pos], ⟨buf, pos + 2⟩) := by
  have step : BinaryReader.h ⟨buf, pos⟩ 1 = (do
      let (bs, c1) ← readBytes ⟨buf, pos⟩ 2
      let (rest, c2) ← BinaryReader.h c1 0
      .ok (leNat bs :: rest, c2)) := rfl
  rw [step, readBytes_ok buf pos 2 h]
  simp only [bind, Except.bind, BinaryReader.h]
  rfl

theorem f3_ok (buf : Buf) (pos : Nat) (h : pos + 12 ≤ buf.length) :
    BinaryReader.f ⟨buf, pos⟩ 3 =
      .ok ([decodeF32 (u32At buf pos), decodeF32 (u32At buf (pos + 4)),
            decodeF32 (u32At buf (pos + 8))], ⟨buf, pos + 12⟩) := by
  simp only [BinaryReader.f, bind, Except.bind, readBytes_ok buf pos 4 (by omega)]
  simp only [readBytes_ok buf (pos + 4) 4 (by omega)]
  simp only [readBytes_ok buf (pos + 4 + 4) 4 (by omega)]
  have h12 : pos + 4 + 4 + 4 = pos + 12 := by ring
  rw [h12]
  rfl

theorem pos16List_succ (buf : Buf) (pos n : Nat) :
    pos16List buf pos (n + 1) =
      [FVal.finite ((u16At buf pos : ℚ) / 2 ^ 14),
       FVal.finite ((u16At buf (pos + 2) : ℚ) / 2 ^ 14),
       FVal.finite ((u16At buf (pos + 4) : ℚ) / 2 ^ 14)] :: pos16List buf (pos + 16) n := by
  unfold pos16List
  rw [List.range_succ_eq_map, List.map_cons, List.map_map]
  refine congrArg₂ _ (by norm_num) (List.map_congr_left fun j _ => ?_)
  simp only [Function.comp_apply, Nat.succ_eq_add_one]
  have h1 : pos + 16 * (j + 1) = pos + 16 + 16 * j := by ring
  simp [h1]

theorem pos12List_succ (buf : Buf) (pos n : Nat) :
    pos12List buf pos (n + 1) =
      [decodeF32 (u32At buf pos), decodeF32 (u32At buf (pos + 4)),
       decodeF32 (u32At buf (pos + 8))] :: pos12List buf (pos + 12) n := by
  unfold pos12List
  rw [List.range_succ_eq_map, List.map_cons, List.map_map]
  refine congrArg₂ _ (by norm_num) (List.map_congr_left fun j _ => ?_)
  simp only [Function.comp_apply, Nat.succ_eq_add_one]
  have h1 : pos + 12 * (j + 1) = pos + 12 + 12 * j := by ring
  simp [h1]

theorem decodePos16_ok (buf : Buf) (count : Nat) : ∀ pos : Nat, pos + 16 * count ≤ buf.length →
    decodePos16 buf count pos = .ok (pos16List buf pos count, pos + 16 * count) := by
  induction count with
  | zero => intro pos _; simp [decodePos16, pos16List]
  | succ n ih =>
    intro pos h
    have step : decodePos16 buf (n + 1) pos = (do
        let (xs, c1) ← BinaryReader.h ⟨buf, pos⟩ 1
        let (ys, c2) ← BinaryReader.h c1 1
        let (zs, _) ← BinaryReader.h c2 1
        let v : List FVal := [.finite ((xs.getD 0 0 : ℚ) / 2 ^ 14),
                              .finite ((ys.getD 0 0 : ℚ) / 2 ^ 14),
                              .finite ((zs.getD 0 0 : ℚ) / 2 ^ 14)]
        let (rest, p) ← decodePos16 buf n (pos + 16)
        .ok (v :: rest, p)) := rfl
    rw [step, h1_ok buf pos (by omega)]
    simp only [bind, Except.bind, h1_ok buf (pos + 2) (by omega), h1_ok buf (pos + 4) (by omega),
      ih (pos + 16) (by omega)]
    rw [pos16List_succ]
    have harith : pos + 16 + 16 * n = pos + 16 * (n + 1) := by ring
    rw [harith]
    rfl

theorem decodePos12_ok (buf : Buf) (count : Nat) : ∀ pos : Nat, pos + 12 * count ≤ buf.length →
    decodePos12 buf count pos = .ok (pos12List buf pos count, pos + 12 * count) := by
  induction count with
  | zero => intro pos _; simp [decodePos12, pos12List]
  | succ n ih =>
    intro pos h
    have step : decodePos12 buf (n + 1) pos = (do
        let (fs, _) ← BinaryReader.f ⟨buf, pos⟩ 3
        let (rest, p) ← decodePos12 buf n (pos + 12)
        .ok (fs :: rest, p)) := rfl
    rw [step, f3_ok buf pos (by omega)]
    simp only [bind, Except.bind, ih (pos + 12) (by omega)]
    rw [pos12List_succ]
    have harith : pos + 12 + 12 * n = pos + 12 * (n + 1) := by ring
    rw [harith]

theorem wordChars_succ (buf : Buf) (start r : Nat) :
    BinaryReader.wordChars buf start (r + 1) =
      match buf[start]? with
      | none => BinaryReader.wordChars buf start r
      | some b =>
        if b = 0 then ([], start + 1 + r)
        else
          let rest := BinaryReader.wordChars buf (start + 1) r
          (if b % 256 < 128 then Char.ofNat (b % 256) :: rest.1 else rest.1, rest.2) := rfl

theorem wordChars_spec (buf : Buf) : ∀ len start : Nat, start + len ≤ buf.length →
    BinaryReader.wordChars buf start len =
      (asciiChars (((buf.drop start).take len).takeWhile fun b => decide (b ≠ 0)),
       start + len) := by
  intro len
  induction len with
  | zero => intro start _; simp [BinaryReader.wordChars, asciiChars]
  | succ r ih =>
    intro start h
    have hlt : start < buf.length := by omega
    have hdrop : buf.drop start = buf[start] :: buf.drop (start + 1) :=
      List.drop_eq_getElem_cons hlt
    have hsome : buf[start]? = some buf[start] := List.getElem?_eq_getElem hlt
    rw [wordChars_succ, hsome]
    by_cases hz : buf[start] = 0
    · simp only [hz, if_pos rfl, hdrop, List.take_succ_cons, List.takeWhile_cons]
      simp [asciiChars]
      omega
    · simp only [if_neg hz, hdrop, List.take_succ_cons, List.takeWhile_cons, hz, ne_eq,
        decide_not, decide_eq_true_eq]
      simp only [ih (start + 1) (by omega)]
      simp only [asciiChars, List.filter_cons]
      by_cases hb : buf[start] % 256 < 128
      · simp [hz, hb]
        omega
      · simp [hz, hb]
        omega

/-- Claim C9 counterexample: at a buffer position with fewer than `len`
bytes remaining and no null terminator, `word` leaves the cursor at the end
of the buffer, not `len` bytes past the start: on the one-byte buffer
`[65]`, `word(3)` from position 0 ends at position 1, not 3. -/
theorem C9_counterexample :
    (BinaryReader.word ⟨[65], 0⟩ 3).2.pos = 1 ∧
    ¬(BinaryReader.word ⟨[65], 0⟩ 3).2.pos = 0 + 3 := by
  decide

/-- Claim C9 (amended): for every length and every buffer position with at
least `len` bytes remaining, the fixed-length string read returns the
decoded characters preceding the first null byte (all `len` bytes when no
null occurs) and leaves the cursor exactly `len` bytes past the start, in
both the early-null and the no-null cases.  (When fewer than `len` bytes
remain and no null byte occurs among them, the cursor instead stops at the
end of the buffer.) -/
theorem C9_fixed_string_amended (buf : Buf) (len start : Nat) (h : start + len ≤ buf.length) :
    BinaryReader.word ⟨buf, start⟩ len =
      (String.mk (asciiChars (((buf.drop start).take len).takeWhile fun b => decide (b ≠ 0))),
       ⟨buf, start + len⟩) := by
  simp [BinaryReader.word, wordChars_spec buf len start h]

/-- Claim C9 witness: `word(4)` over `[72, 105, 0, 7]` ("Hi\x00..") returns
"Hi" and leaves the cursor at 4. -/
theorem C9_fixed_string_amended_witness :
    0 + 4 ≤ ([72, 105, 0, 7] : Buf).length ∧
    BinaryReader.word ⟨[72, 105, 0, 7], 0⟩ 4 = ("Hi", ⟨[72, 105, 0, 7], 4⟩) :=
  ⟨by decide, (C9_fixed_string_amended [72, 105, 0, 7] 4 0 (by decide)).trans (by decide)⟩

/-- Claim C10: for every input file path and every outcome of the parse,
including every exception raised mid-scan, `import_sleeping_dogs` returns
the success status FINISHED; no parse failure propagates out of the import
entry point (the whole body is inside `try/except Exception`, and the
return statement is outside the `try`). -/
theorem C10_import_always_finished (filepath : String) (parse : ScanState × Option PErr) :
    (import_sleeping_dogs filepath parse).status = "FINISHED" := by
  obtain ⟨s, o⟩ := parse
  cases o <;> simp only [import_sleeping_dogs] <;> split <;> rfl

/-- Claim C5 counterexample: in a container whose two stream sections both
carry section id 5 (first descriptor starting 111 at data offset 208,
second starting 222 at data offset 416), the scan finishes cleanly, a later
lookup of id 5 resolves to the second descriptor and offset, and no warning
is logged — refuting keep-first-and-warn. -/
theorem C5_counterexample :
    (binParserRun bufC5 none "m" "d" 10).map
        (fun r => (r.2, (dictLookup r.1.streams 5).map fun e => (e.1.getD 0 0, e.2),
                   r.1.warnings.length)) =
      some (none, some (222, 416), 0) ∧
    ¬((binParserRun bufC5 none "m" "d" 10).map
        (fun r => (dictLookup r.1.streams 5).map fun e => e.1.getD 0 0) =
      some (some 111)) := by
  constructor <;> decide

/-- Claim C5 (amended): when a stream section carries a numeric section ID
that is already registered, the parser silently overwrites the earlier
entry: the new 32-field descriptor and data offset are stored, later
lookups of that ID resolve to the second (last) stream section, and no
warning is issued (`streams[str(vc[3])] = [v, g.tell()]` is a plain dict
assignment). -/
theorem C5_amended_duplicate_overwrites (buf : Buf) (pos : Nat) (k : Int) (d : Streams)
    (e0 : StreamEntry) (_hdup : dictLookup d k = some e0) (hlen : pos + 128 ≤ buf.length) :
    streamSection ⟨buf, pos⟩ k d =
      .ok (dictInsert d k (i32ListAt buf pos 32, pos + 128), ⟨buf, pos + 128⟩) ∧
    dictLookup (dictInsert d k (i32ListAt buf pos 32, pos + 128)) k =
      some (i32ListAt buf pos 32, pos + 128) := by
  constructor
  · unfold streamSection
    rw [readI_ok buf 32 pos (by omega)]
    rfl
  · exact dictLookup_insert d k _

/-- Claim C5 witness: re-registering id 5 over a 128-byte zero descriptor
replaces the previous entry `([111], 0)`. -/
theorem C5_amended_duplicate_overwrites_witness :
    dictLookup ([(5, ([111], 0))] : Streams) 5 = some ([111], 0) ∧
    streamSection ⟨List.replicate 128 0, 0⟩ 5 [(5, ([111], 0))] =
      .ok (dictInsert [(5, ([111], 0))] 5 (i32ListAt (List.replicate 128 0) 0 32, 0 + 128),
           ⟨List.replicate 128 0, 0 + 128⟩) ∧
    dictLookup (dictInsert [(5, ([111], 0))] 5 (i32ListAt (List.replicate 128 0) 0 32, 0 + 128)) 5 =
      some (i32ListAt (List.replicate 128 0) 0 32, 0 + 128) :=
  ⟨by decide,
   (C5_amended_duplicate_overwrites (List.replicate 128 0) 0 5 [(5, ([111], 0))] ([111], 0)
     (by decide) (by decide)).1,
   (C5_amended_duplicate_overwrites (List.replicate 128 0) 0 5 [(5, ([111], 0))] ([111], 0)
     (by decide) (by decide)).2⟩

/-- Claim C3 counterexample: a container whose index stream (id 10) holds 4
records `[0, 1, 2, 0]` while the mesh-info record asks for
`faceIndexStart = 0`, `faceCount = 2` (6 indices) parses without any
exception and leaves the mesh with a triangle list of length 4, i.e. the
slice was silently truncated instead of raising. -/
theorem C3_counterexample :
    (binParserRun bufC3 none "m" "d" 10).map
        (fun r => (r.2, r.1.mesh_list.length,
                   (r.1.mesh_list.getD 0 (Mesh.new "")).indiceslist.length)) =
      some (none, 1, 4) ∧ ¬(4 = 2 * 3) := by
  constructor <;> decide

/-- Claim C3 (amended): when the requested index slice
`[faceIndexStart : faceIndexStart + faceCount * 3]` overruns the index
stream's record array, line 383 silently appends the clamped slice — all
records from `faceIndexStart` to the end, fewer than `faceCount * 3`
entries — and no exception is raised (the code has no `IndexRangeError`). -/
theorem C3_amended_silent_truncation (old allIdx : List Nat) (start cnt : Int)
    (h0 : 0 ≤ start) (h1 : start.toNat ≤ allIdx.length)
    (h2 : (allIdx.length : Int) < start + cnt * 3) :
    (extendIndices old allIdx start cnt).length =
      old.length + (allIdx.length - start.toNat) ∧
    ((allIdx.length - start.toNat : Nat) : Int) < cnt * 3 := by
  have hb : pyIdx allIdx.length (start + cnt * 3) = allIdx.length := by
    unfold pyIdx
    rw [if_neg (by omega)]
    omega
  have ha : pyIdx allIdx.length start = start.toNat := by
    unfold pyIdx
    rw [if_neg (by omega)]
    omega
  constructor
  · unfold extendIndices pySlice
    rw [hb, ha, List.take_length]
    simp [List.length_drop]
  · omega

/-- Claim C3 witness: slicing 6 indices out of the 4-record array
`[0, 1, 2, 0]` appends only 4. -/
theorem C3_amended_silent_truncation_witness :
    (extendIndices ([] : List Nat) [0, 1, 2, 0] 0 2).length =
      ([] : List Nat).length + (([0, 1, 2, 0] : List Nat).length - (0 : Int).toNat) ∧
    ((([0, 1, 2, 0] : List Nat).length - (0 : Int).toNat : Nat) : Int) < 2 * 3 :=
  C3_amended_silent_truncation [] [0, 1, 2, 0] 0 2 (by decide) (by decide) (by decide)

/-- Claim C4 counterexample: a container whose position stream (id 20)
descriptor declares the unsupported stride 20 parses to the end without any
exception — no `UnsupportedVertexLayout` exists — and the produced mesh
simply has an empty vertex list. -/
theorem C4_counterexample :
    (binParserRun bufC4 none "m" "d" 10).map
        (fun r => (r.2, r.1.mesh_list.length,
                   (r.1.mesh_list.getD 0 (Mesh.new "")).vertexlist.length)) =
      some (none, 1, 0) := by
  decide

/-- Claim C4 (amended): a position-stream stride other than 16 or 12
matches neither decode branch, so the record decodes to no vertices at all
and no exception is raised (silent skip); stride 16 decodes each record as
three 16-bit values scaled by `2 ** -14` read at 16-byte steps, and stride
12 decodes each record as three raw IEEE-754 singles. -/
theorem C4_amended_position_layouts (buf : Buf) (dataOff count : Nat) :
    (∀ stride : Int, stride ≠ 16 → stride ≠ 12 →
        decodePositions buf dataOff stride count = .ok ([], dataOff)) ∧
    (dataOff + 16 * count ≤ buf.length →
        decodePositions buf dataOff 16 count =
          .ok (pos16List buf dataOff count, dataOff + 16 * count)) ∧
    (dataOff + 12 * count ≤ buf.length →
        decodePositions buf dataOff 12 count =
          .ok (pos12List buf dataOff count, dataOff + 12 * count)) := by
  refine ⟨fun stride h16 h12 => ?_, fun h => ?_, fun h => ?_⟩
  · unfold decodePositions
    rw [if_neg h16, if_neg h12]
  · unfold decodePositions
    rw [if_pos rfl]
    exact decodePos16_ok buf count dataOff h
  · unfold decodePositions
    rw [if_neg (by norm_num), if_pos rfl]
    exact decodePos12_ok buf count dataOff h

/-- Claim C4 witness: over a 16-byte zero buffer, stride 20 yields no
vertices and no error, stride 16 yields one half-float record, stride 12
one raw-float record. -/
theorem C4_amended_position_layouts_witness :
    decodePositions (List.replicate 16 0) 0 20 1 = .ok ([], 0) ∧
    decodePositions (List.replicate 16 0) 0 16 1 =
      .ok (pos16List (List.replicate 16 0) 0 1, 0 + 16 * 1) ∧
    decodePositions (List.replicate 16 0) 0 12 1 =
      .ok (pos12List (List.replicate 16 0) 0 1, 0 + 12 * 1) :=
  ⟨(C4_amended_position_layouts (List.replicate 16 0) 0 1).1 20 (by decide) (by decide),
   (C4_amended_position_layouts (List.replicate 16 0) 0 1).2.1 (by decide),
   (C4_amended_position_layouts (List.replicate 16 0) 0 1).2.2 (by decide)⟩

/-- Claim C6 counterexample: a container whose mesh-info section holds two
records that both reference position-stream id 20 (stride 12, record count
2) produces one mesh whose vertex list has length 4 = 2 records times 2,
not the declared record count 2. -/
theorem C6_counterexample :
    (binParserRun bufC6 none "m" "d" 10).map
        (fun r => (r.2, r.1.mesh_list.length,
                   (r.1.mesh_list.getD 0 (Mesh.new "")).vertexlist.length)) =
      some (none, 1, 4) ∧ ¬(4 = 2) := by
  constructor <;> decide

/-- Claim C6 (amended): each qualifying mesh-info record appends exactly
the record count declared in the resolved position-stream descriptor
(stride 16 or 12) to the owning mesh's vertex list; hence a mesh that is
the target of one record has exactly that many vertices, while `k` records
referencing the same position-stream ID leave `k` times the declared
count. -/
theorem C6_amended_vertex_accumulation (buf : Buf) (dataOff count : Nat) (stride : Int)
    (mesh : Mesh)
    (h : stride = 16 ∧ dataOff + 16 * count ≤ buf.length ∨
         stride = 12 ∧ dataOff + 12 * count ≤ buf.length) :
    (decodePositions buf dataOff stride count).map
        (fun r => (mesh.appendPositions r.1).vertexlist.length) =
      .ok (mesh.vertexlist.length + count) := by
  rcases h with ⟨hs, hl⟩ | ⟨hs, hl⟩ <;> subst hs
  · unfold decodePositions
    rw [if_pos rfl, decodePos16_ok buf count dataOff hl]
    simp [Mesh.appendPositions, pos16List, Except.map]
  · unfold decodePositions
    rw [if_neg (by norm_num), if_pos rfl, decodePos12_ok buf count dataOff hl]
    simp [Mesh.appendPositions, pos12List, Except.map]

/-- Claim C6 witness: appending a stride-12 stream of 2 records to a fresh
mesh leaves 2 vertices. -/
theorem C6_amended_vertex_accumulation_witness :
    (decodePositions (List.replicate 24 0) 0 12 2).map
        (fun r => ((Mesh.new "w").appendPositions r.1).vertexlist.length) =
      .ok ((Mesh.new "w").vertexlist.length + 2) :=
  C6_amended_vertex_accumulation (List.replicate 24 0) 0 2 12 (Mesh.new "w")
    (Or.inr ⟨rfl, by decide⟩)

theorem writeAt_eq_append (content bs : List Nat) (off : Nat) (h : content.length = off) :
    writeAt content off bs = content ++ bs := by
  subst h
  unfold writeAt
  rw [List.take_length, Nat.sub_self, List.drop_eq_nil_of_le (by omega)]
  simp

/-- Claim C7: for every texture section with codec code 1 (field 1) and
size code 65543 (field 4) whose companion file is present, the handler
writes exactly one file, named by the section id, whose content is the
128-byte DDS header — carrying "DXT1" at offset 0x54 and 256 as int32 at
offsets 0x10 (width) and 0xC (height) — followed by the companion-file
payload read at offset `field[12]` for `field[13]` bytes, and raises
nothing. -/
theorem C7_texture_dxt1_256 (temp : Buf) (dirname : String) (vc3 : Int) (buf : Buf) (pos : Nat)
    (hlen : pos + 220 ≤ buf.length)
    (hcodec : i32At buf (pos + 4) = 1)
    (hsize : i32At buf (pos + 16) = 65543)
    (hoff : 0 ≤ i32At buf (pos + 48)) :
    textureSection temp dirname vc3 ⟨buf, pos⟩ =
      ([(dirname ++ "/" ++ toString vc3 ++ ".dds",
         ddsPatched256 ++ fileReadCount temp (i32At buf (pos + 48)).toNat (i32At buf (pos + 52)))],
       ⟨buf, pos + 220⟩, none) ∧
    ddsPatched256.length = 128 ∧
    (ddsPatched256.drop 84).take 4 = DXT1 ∧
    (ddsPatched256.drop 16).take 4 = i32ToBytes 256 ∧
    (ddsPatched256.drop 12).take 4 = i32ToBytes 256 := by
  refine ⟨?_, by decide, by decide, by decide, by decide⟩
  have hkey : ∀ payload : List Nat,
      writeAt (writeAt (writeAt (writeAt ddsheaderBytes 12 (i32ToBytes 256)) 16 (i32ToBytes 256))
        84 DXT1) 128 payload = ddsPatched256 ++ payload :=
    fun payload => writeAt_eq_append _ _ _ (by decide)
  unfold textureSection
  rw [readI_ok buf 55 pos (by omega)]
  dsimp only
  rw [i32ListAt_getD buf pos (show 4 < 55 by norm_num),
    i32ListAt_getD buf pos (show 1 < 55 by norm_num),
    i32ListAt_getD buf pos (show 12 < 55 by norm_num),
    i32ListAt_getD buf pos (show 13 < 55 by norm_num)]
  norm_num
  rw [hsize, hcodec]
  norm_num
  rw [if_neg (by omega), hkey]

/-- Claim C7 witness: a concrete texture section (codec 1, size 65543,
payload offset 2, payload length 3) with companion content
`[9, 9, 5, 6, 7, 8]` emits exactly `d/7.dds` holding the patched header
followed by `[5, 6, 7]`. -/
theorem C7_texture_dxt1_256_witness :
    textureSection [9, 9, 5, 6, 7, 8] "d" 7 ⟨bufC7, 0⟩ =
      ([("d/7.dds", ddsPatched256 ++ [5, 6, 7])], ⟨bufC7, 220⟩, none) :=
  ((C7_texture_dxt1_256 [9, 9, 5, 6, 7, 8] "d" 7 bufC7 0 (by decide) (by decide) (by decide)
    (by decide)).1).trans (by decide)

/-- Claim C1, evaluated at the failing input: a texture section (declared
length 100, header skip 0) whose companion file is absent completes its
handling via `continue` with only a warning — no exception — but leaves
the cursor at `sectionStart + headerSkip + 64 = 80`, not at
`sectionStart + length = 116`: the `continue` on line 306 skips the forced
seek on line 457, so this section desynchronizes the scan. -/
theorem C1_missing_temp_skips_resync :
    (scanStep none "m" "d" (initState bufC1)).2 = none ∧
    (scanStep none "m" "d" (initState bufC1)).1.cur.pos = 80 ∧
    (scanStep none "m" "d" (initState bufC1)).1.warnings.length = 1 ∧
    ¬((scanStep none "m" "d" (initState bufC1)).1.cur.pos = 16 + 100) := by
  decide

/-- Claim C2, evaluated at the failing input: in a container holding a
texture section whose companion file is absent followed by a stream
section, the parser does emit the warning and writes no texture file, but
the skipped end-of-section seek leaves the cursor inside the texture
section's body; the scan then misreads the following bytes as a section
header, seeks far past the end of the file and aborts with a truncation
error — the subsequent stream section is never registered, so scanning
does not continue normally. -/
theorem C2_missing_temp_desyncs_scan :
    (binParserRun bufC2 none "m" "d" 10).map
        (fun r => (r.2, r.1.warnings.length, r.1.outputs.length, r.1.streams.length)) =
      some (some PErr.truncated, 1, 0, 0) := by
  decide

/-- Claim C8, evaluated at the failing input: a texture section with the
unknown codec code 0 but the known size code 65543 is not skipped: since
the width resolved, the handler opens the output file, writes the header
and both dimensions, and then `new.write(dxt)` with `dxt = None` raises
`TypeError` — one (partial) output file exists and the scan aborts. -/
theorem C8_unknown_codec_type_error :
    (textureSection [1, 2, 3] "d" 7 ⟨bufC8, 0⟩).2.2 = some PErr.typeError ∧
    (textureSection [1, 2, 3] "d" 7 ⟨bufC8, 0⟩).1.length = 1 := by
  decide
